import Mathlib

/-!
Shallow embedding of the CNalign optimization-model builder
(`src/CNAlign/core.py`, function `CNAlign`), its stagnation callback,
its multi-objective submission, its credential/build control flow and its
solution-pool extractor, together with theorems settling the frozen claims.

Conventions of the embedding:
* Python floats are modelled by exact rationals `ℚ`.
* The per-cell derived quantity `c = 2**logR` is carried directly as cell
  data (the input `logR` enters the model only through `c` and
  `c1 = 2**(logR+1) = 2*c`, which is an exact identity).
* A `NaN` BAF in the input table is modelled as `Option.none`; the code
  recodes it to the sentinel `-9` before the build loop.
* Gurobi decision variables declared without an explicit lower bound get
  the solver's documented default lower bound `0.0`; those bounds are part
  of the feasibility predicate.
* `Model.addGenConstrIndicator(v, 1, expr, sense, rhs)` and the
  `(v == 1) >> (...)` form constrain the model only in the direction
  `v = 1 → expr sense rhs` (Gurobi indicator-constraint semantics).
  `addGenConstrAnd` / `addGenConstrOr` are exact equivalences.
-/

namespace CNalign

/-- Boolean decision-variable value read as the rational 0/1 it denotes
inside linear constraints. -/
def b2q (b : Bool) : ℚ := if b then 1 else 0

/-- Input data of one (sample, segment) observation cell.
`c` is the derived quantity `2**logR` (the raw `logR` enters the built
model only through `c` and `c1 = 2**(logR+1) = 2*c`).  `BAF = none`
models a `NaN` B-allele fraction in the input table. -/
structure CellData where
  c : ℚ
  BAF : Option ℚ
  GC : ℚ
  mb : ℚ
deriving DecidableEq

/-- Recoding of missing BAFs performed before the build loop:
`dat.loc[np.isnan(dat['BAF']),'BAF'] = -9`. -/
def recodeBAF : Option ℚ → ℚ
  | none => -9
  | some b => b

/-- Scalar configuration arguments of `CNAlign`. -/
structure Config where
  min_ploidy : ℚ
  max_ploidy : ℚ
  min_purity : ℚ
  max_purity : ℚ
  min_aligned_seg_mb : ℚ
  max_homdel_mb : ℚ
  delta_tcn_to_int : ℚ
  delta_tcn_to_avg : ℚ
  delta_tcnavg_to_int : ℚ
  delta_mcn_to_int : ℚ
  delta_mcn_to_avg : ℚ
  delta_mcnavg_to_int : ℚ
  mcn_weight : ℚ
  rho : ℚ
  min_cna_segments_per_sample : ℤ
  obj2_clonalonly : Bool
deriving DecidableEq

/-- One assignment of values to every decision variable the model declares
(`nS` samples, `nG` segments).  Integer variables are `ℤ`-valued, binary
variables `Bool`-valued, continuous variables `ℚ`-valued.  The fields
`tcn_int_err_term`/`mcn_int_err_term` are only constrained when
`obj2_clonalonly` is true (the only case in which the code declares them). -/
structure Assign (nS nG : ℕ) where
  n1 : Fin nS → Fin nG → ℚ
  tcn : Fin nS → Fin nG → ℚ
  tcn_avg : Fin nS → Fin nG → ℚ
  tcn_int : Fin nS → Fin nG → ℤ
  tcn_int_err : Fin nS → Fin nG → ℚ
  tcn_spread : Fin nS → Fin nG → ℚ
  tcn_avg_int : Fin nS → Fin nG → ℤ
  tcn_avg_int_err : Fin nS → Fin nG → ℚ
  tcn_close_to_int : Fin nS → Fin nG → Bool
  tcn_close_to_avg : Fin nS → Fin nG → Bool
  tcn_avg_close_to_int : Fin nS → Fin nG → Bool
  tcn_match : Fin nS → Fin nG → Bool
  tcn_match_and_avg_at_int : Fin nS → Fin nG → Bool
  tcn_gain : Fin nS → Fin nG → Bool
  tcn_loss : Fin nS → Fin nG → Bool
  tcn_cna : Fin nS → Fin nG → Bool
  tcn_error_clonal : ℚ
  mcn : Fin nS → Fin nG → ℚ
  mcn_avg : Fin nS → Fin nG → ℚ
  mcn_int : Fin nS → Fin nG → ℤ
  mcn_int_err : Fin nS → Fin nG → ℚ
  mcn_spread : Fin nS → Fin nG → ℚ
  mcn_avg_int : Fin nS → Fin nG → ℤ
  mcn_avg_int_err : Fin nS → Fin nG → ℚ
  mcn_close_to_int : Fin nS → Fin nG → Bool
  mcn_close_to_avg : Fin nS → Fin nG → Bool
  mcn_avg_close_to_int : Fin nS → Fin nG → Bool
  mcn_match : Fin nS → Fin nG → Bool
  mcn_match_and_avg_at_int : Fin nS → Fin nG → Bool
  mcn_gain : Fin nS → Fin nG → Bool
  mcn_loss : Fin nS → Fin nG → Bool
  mcn_cna : Fin nS → Fin nG → Bool
  mcn_error_clonal : ℚ
  match_both : Fin nS → Fin nG → Bool
  match_both_and_large_enough : Fin nS → Fin nG → Bool
  match_both_and_large_enough_and_cna : Fin nS → Fin nG → Bool
  is_homdel : Fin nS → Fin nG → Bool
  is_cna : Fin nS → Fin nG → Bool
  large_enough : Fin nS → Fin nG → Bool
  allmatch : Fin nG → Bool
  pl : Fin nS → ℚ
  z : Fin nS → ℚ
  homdel_mb : Fin nS → ℚ
  n_cna_segments_per_sample : Fin nS → ℤ
  avg_ploidy : ℚ
  n_clonal : ℤ
  tcn_int_err_term : Fin nS → Fin nG → ℚ
  mcn_int_err_term : Fin nS → Fin nG → ℚ

/-- Variable bounds of the model: the bounds passed explicitly to
`addVar`/`addVars`, together with Gurobi's default lower bound `0` for
every continuous or integer variable declared without an explicit `lb`
(`n1`, `tcn`, `tcn_avg`, `tcn_int`, `mcn`, `mcn_avg`, `mcn_int`). -/
def VarBounds {nS nG : ℕ} (cfg : Config) (A : Assign nS nG) : Prop :=
  (∀ t s, 0 ≤ A.n1 t s) ∧
  (∀ t s, 0 ≤ A.tcn t s) ∧
  (∀ t s, 0 ≤ A.tcn_avg t s) ∧
  (∀ t s, 0 ≤ A.tcn_int t s) ∧
  (∀ t s, 0 ≤ A.tcn_int_err t s) ∧
  (∀ t s, 0 ≤ A.tcn_spread t s) ∧
  (∀ t s, 0 ≤ A.tcn_avg_int t s) ∧
  (∀ t s, 0 ≤ A.tcn_avg_int_err t s) ∧
  0 ≤ A.tcn_error_clonal ∧
  (∀ t s, 0 ≤ A.mcn t s) ∧
  (∀ t s, 0 ≤ A.mcn_avg t s) ∧
  (∀ t s, 0 ≤ A.mcn_int t s) ∧
  (∀ t s, 0 ≤ A.mcn_int_err t s) ∧
  (∀ t s, 0 ≤ A.mcn_spread t s) ∧
  (∀ t s, 0 ≤ A.mcn_avg_int t s) ∧
  (∀ t s, 0 ≤ A.mcn_avg_int_err t s) ∧
  0 ≤ A.mcn_error_clonal ∧
  (∀ t, cfg.min_ploidy ≤ A.pl t ∧ A.pl t ≤ cfg.max_ploidy) ∧
  (∀ t, 1 / cfg.max_purity ≤ A.z t ∧ A.z t ≤ 1 / cfg.min_purity) ∧
  (∀ t, 0 ≤ A.homdel_mb t ∧ A.homdel_mb t ≤ cfg.max_homdel_mb) ∧
  (∀ t, cfg.min_cna_segments_per_sample ≤ A.n_cna_segments_per_sample t ∧
        A.n_cna_segments_per_sample t ≤ (nG : ℤ)) ∧
  (cfg.min_ploidy ≤ A.avg_ploidy ∧ A.avg_ploidy ≤ cfg.max_ploidy) ∧
  (0 ≤ A.n_clonal ∧ A.n_clonal ≤ (nG : ℤ))

/-- Per-cell constraints of the build loop (`for s in Segments: for t in
Samples:` in the source), for the cell with data `d = dat.loc[t,s]`.
Indicator constraints and `(v == 1) >> (...)` constraints bind only in the
direction `v = 1 → condition`; `addGenConstrAnd`/`addGenConstrOr` are
exact.  The two branches of the source `if b != -9:` are rendered as the
two implications guarded by `b ≠ -9` and `b = -9`. -/
def CellConstraints {nS nG : ℕ} (cfg : Config) (d : CellData)
    (A : Assign nS nG) (t : Fin nS) (s : Fin nG) : Prop :=
  let b := recodeBAF d.BAF
  let c := d.c
  let c1 := 2 * c
  let g := d.GC
  (A.large_enough t s = true → d.mb ≥ cfg.min_aligned_seg_mb) ∧
  (b ≠ -9 →
      A.n1 t s = -b*c*A.pl t + b*c1 - b*c1*A.z t + c*A.pl t - c1 + c1*A.z t
                  + g - g*A.z t - 1 + A.z t ∧
      A.mcn t s = b*c*A.pl t - b*c1 + b*c1*A.z t + 1 - A.z t) ∧
  (b = -9 →
      A.n1 t s = A.z t*c*2 + c*A.pl t - 2*c - g*A.z t + g ∧
      A.mcn t s = 0) ∧
  A.tcn t s = A.n1 t s + A.mcn t s ∧
  ((A.tcn_int t s : ℚ) ≤ A.tcn t s + 1/2) ∧
  ((A.tcn_int t s : ℚ) ≥ A.tcn t s - 1/2) ∧
  (A.tcn_int_err t s ≥ (A.tcn_int t s : ℚ) - A.tcn t s) ∧
  (A.tcn_int_err t s ≥ -(A.tcn_int t s : ℚ) + A.tcn t s) ∧
  (A.tcn_close_to_int t s = true → A.tcn_int_err t s ≤ cfg.delta_tcn_to_int) ∧
  (A.tcn_avg t s = (∑ u, A.tcn u s) / (nS : ℚ)) ∧
  (A.tcn_spread t s ≥ A.tcn_avg t s - A.tcn t s) ∧
  (A.tcn_spread t s ≥ -A.tcn_avg t s + A.tcn t s) ∧
  (A.tcn_close_to_avg t s = true → A.tcn_spread t s ≤ cfg.delta_tcn_to_avg) ∧
  ((A.tcn_avg_int t s : ℚ) ≤ A.tcn_avg t s + 1/2) ∧
  ((A.tcn_avg_int t s : ℚ) ≥ A.tcn_avg t s - 1/2) ∧
  (A.tcn_avg_int_err t s ≥ A.tcn_avg t s - (A.tcn_avg_int t s : ℚ)) ∧
  (A.tcn_avg_int_err t s ≥ -A.tcn_avg t s + (A.tcn_avg_int t s : ℚ)) ∧
  (A.tcn_avg_close_to_int t s = true →
      A.tcn_avg_int_err t s ≤ cfg.delta_tcnavg_to_int) ∧
  (A.tcn_match t s = (A.tcn_close_to_int t s && A.tcn_close_to_avg t s)) ∧
  (A.tcn_match_and_avg_at_int t s
      = (A.tcn_match t s && A.tcn_avg_close_to_int t s)) ∧
  (A.tcn_gain t s = true → (A.tcn_int t s : ℚ) ≥ g + 1) ∧
  (A.tcn_loss t s = true → (A.tcn_int t s : ℚ) ≤ g - 1) ∧
  (A.tcn_cna t s = (A.tcn_gain t s || A.tcn_loss t s)) ∧
  ((A.mcn_int t s : ℚ) ≤ A.mcn t s + 1/2) ∧
  ((A.mcn_int t s : ℚ) ≥ A.mcn t s - 1/2) ∧
  (A.mcn_int_err t s ≥ (A.mcn_int t s : ℚ) - A.mcn t s) ∧
  (A.mcn_int_err t s ≥ -(A.mcn_int t s : ℚ) + A.mcn t s) ∧
  (A.mcn_close_to_int t s = true → A.mcn_int_err t s ≤ cfg.delta_mcn_to_int) ∧
  (A.mcn_avg t s = (∑ u, A.mcn u s) / (nS : ℚ)) ∧
  (A.mcn_spread t s ≥ A.mcn_avg t s - A.mcn t s) ∧
  (A.mcn_spread t s ≥ -A.mcn_avg t s + A.mcn t s) ∧
  (A.mcn_close_to_avg t s = true → A.mcn_spread t s ≤ cfg.delta_mcn_to_avg) ∧
  ((A.mcn_avg_int t s : ℚ) ≤ A.mcn_avg t s + 1/2) ∧
  ((A.mcn_avg_int t s : ℚ) ≥ A.mcn_avg t s - 1/2) ∧
  (A.mcn_avg_int_err t s ≥ A.mcn_avg t s - (A.mcn_avg_int t s : ℚ)) ∧
  (A.mcn_avg_int_err t s ≥ -A.mcn_avg t s + (A.mcn_avg_int t s : ℚ)) ∧
  (A.mcn_avg_close_to_int t s = true →
      A.mcn_avg_int_err t s ≤ cfg.delta_mcnavg_to_int) ∧
  (A.mcn_match t s = (A.mcn_close_to_int t s && A.mcn_close_to_avg t s)) ∧
  (A.mcn_match_and_avg_at_int t s
      = (A.mcn_match t s && A.mcn_avg_close_to_int t s)) ∧
  (A.mcn_gain t s = true →
      (A.mcn_int t s : ℚ) ≥ (if b ≠ -9 then g - 1 else 0) + 1) ∧
  (A.mcn_loss t s = true →
      (A.mcn_int t s : ℚ) ≤ (if b ≠ -9 then g - 1 else 0) - 1) ∧
  (A.mcn_cna t s = (A.mcn_gain t s || A.mcn_loss t s)) ∧
  (A.match_both t s
      = (A.tcn_match_and_avg_at_int t s && A.mcn_match_and_avg_at_int t s)) ∧
  (A.is_cna t s = (A.tcn_cna t s || A.mcn_cna t s)) ∧
  (A.is_homdel t s = true → A.tcn t s ≤ 1/2) ∧
  (A.match_both_and_large_enough t s
      = (A.match_both t s && A.large_enough t s)) ∧
  (A.match_both_and_large_enough_and_cna t s
      = (A.match_both_and_large_enough t s && A.is_cna t s))

/-- Per-segment constraint: the `allmatch[s]` indicator of the source
(`addGenConstrIndicator(allmatch[s], 1, quicksum(...), GREATER_EQUAL,
rho*n_Samples)`), binding only in the direction `allmatch[s] = 1 → ...`. -/
def SegmentConstraints {nS nG : ℕ} (cfg : Config) (A : Assign nS nG) : Prop :=
  ∀ s, A.allmatch s = true →
    (∑ t, b2q (A.match_both_and_large_enough_and_cna t s)) ≥ cfg.rho * (nS : ℚ)

/-- Per-sample constraints: total homozygous-deletion megabases and the
count of CNA-bearing segments. -/
def SampleConstraints {nS nG : ℕ} (dat : Fin nS → Fin nG → CellData)
    (A : Assign nS nG) : Prop :=
  ∀ t, A.homdel_mb t = (∑ s, (dat t s).mb * b2q (A.is_homdel t s)) ∧
       (A.n_cna_segments_per_sample t : ℚ) = (∑ s, b2q (A.is_cna t s))

/-- Global constraints: average ploidy and the clonal-segment count. -/
def GlobalConstraints {nS nG : ℕ} (A : Assign nS nG) : Prop :=
  A.avg_ploidy = (∑ t, A.pl t) / (nS : ℚ) ∧
  (A.n_clonal : ℚ) = (∑ s, b2q (A.allmatch s))

/-- Error-accumulator constraints: the source branches on
`obj2_clonalonly`.  When false, the totals range over every cell; when
true, each cell's contribution is masked by `allmatch[s]` through the
four-inequality linearization, and the auxiliary term variables carry the
default lower bound `0`. -/
def ErrorConstraints {nS nG : ℕ} (cfg : Config) (A : Assign nS nG) : Prop :=
  (cfg.obj2_clonalonly = false →
      A.tcn_error_clonal = (∑ t, ∑ s, A.tcn_int_err t s) ∧
      A.mcn_error_clonal = (∑ t, ∑ s, A.mcn_int_err t s)) ∧
  (cfg.obj2_clonalonly = true →
      (∀ t s,
        0 ≤ A.tcn_int_err_term t s ∧
        A.tcn_int_err_term t s ≤ A.tcn_int_err t s ∧
        A.tcn_int_err_term t s ≤ b2q (A.allmatch s) ∧
        A.tcn_int_err_term t s ≥ A.tcn_int_err t s - (1 - b2q (A.allmatch s)) ∧
        A.tcn_int_err_term t s ≥ 0 ∧
        0 ≤ A.mcn_int_err_term t s ∧
        A.mcn_int_err_term t s ≤ A.mcn_int_err t s ∧
        A.mcn_int_err_term t s ≤ b2q (A.allmatch s) ∧
        A.mcn_int_err_term t s ≥ A.mcn_int_err t s - (1 - b2q (A.allmatch s)) ∧
        A.mcn_int_err_term t s ≥ 0) ∧
      A.tcn_error_clonal = (∑ t, ∑ s, A.tcn_int_err_term t s) ∧
      A.mcn_error_clonal = (∑ t, ∑ s, A.mcn_int_err_term t s))

/-- Feasibility of one full variable assignment for the model the source
builds on input table `dat` with configuration `cfg`. -/
def Feasible {nS nG : ℕ} (cfg : Config) (dat : Fin nS → Fin nG → CellData)
    (A : Assign nS nG) : Prop :=
  VarBounds cfg A ∧
  (∀ t s, CellConstraints cfg (dat t s) A t s) ∧
  SegmentConstraints cfg A ∧
  SampleConstraints dat A ∧
  GlobalConstraints A ∧
  ErrorConstraints cfg A

set_option synthInstance.maxSize 4000 in
set_option synthInstance.maxHeartbeats 1000000 in
instance {nS nG : ℕ} (cfg : Config) (d : CellData) (A : Assign nS nG)
    (t : Fin nS) (s : Fin nG) : Decidable (CellConstraints cfg d A t s) := by
  unfold CellConstraints
  infer_instance

set_option synthInstance.maxSize 4000 in
set_option synthInstance.maxHeartbeats 1000000 in
instance {nS nG : ℕ} (cfg : Config) (dat : Fin nS → Fin nG → CellData)
    (A : Assign nS nG) : Decidable (Feasible cfg dat A) := by
  unfold Feasible VarBounds SegmentConstraints SampleConstraints
    GlobalConstraints ErrorConstraints
  infer_instance

/-- Optimality of a value `v` for the first objective `n_clonal` over the
feasible set of the built model. -/
def OptimalNClonal {nS nG : ℕ} (cfg : Config)
    (dat : Fin nS → Fin nG → CellData) (v : ℤ) : Prop :=
  (∃ A : Assign nS nG, Feasible cfg dat A ∧ A.n_clonal = v) ∧
  (∀ A : Assign nS nG, Feasible cfg dat A → A.n_clonal ≤ v)

/-!
Stagnation callback (`class StagnationCallback` in the source).  Times are
rationals; `best_obj = none` models the initial `float('inf')`, and a
`mip` event carrying `none` models a report whose `MIP_OBJBST` is not
below `GRB.INFINITY`.
-/

/-- Mutable state of `StagnationCallback`. -/
structure CBState where
  obj_count : ℤ
  last_improve_time : ℚ
  best_obj : Option ℚ
  stagnated : Bool
deriving DecidableEq

/-- The two solver events the callback reacts to: a multi-objective level
transition (`where == GRB.Callback.MULTIOBJ`) and a periodic MIP progress
report (`where == GRB.Callback.MIP`). -/
inductive CBEvent where
  | multiobj (objcnt : ℤ) (now : ℚ)
  | mip (objbst : Option ℚ) (now : ℚ)
deriving DecidableEq

/-- Whether an event is a periodic MIP progress report. -/
def isMip : CBEvent → Bool
  | .multiobj _ _ => false
  | .mip _ _ => true

/-- One invocation of `StagnationCallback.__call__`.  Returns the updated
state and whether `model.cbStopOneMultiObj` was issued.  The improvement
test is the source's `abs(current_obj - self.best_obj) > 1e-5`. -/
def stepCallback (maxStagnation : ℚ) (s : CBState) (e : CBEvent) :
    CBState × Bool :=
  match e with
  | .multiobj k now =>
      ({ obj_count := k, last_improve_time := now, best_obj := none,
         stagnated := false }, false)
  | .mip objbst now =>
      match objbst with
      | none => (s, false)
      | some cur =>
          match s.best_obj with
          | none =>
              ({ s with best_obj := some cur, last_improve_time := now }, false)
          | some b =>
              if |cur - b| > 1/100000 then
                ({ s with best_obj := some cur, last_improve_time := now },
                 false)
              else if now - s.last_improve_time > maxStagnation ∧
                  s.stagnated = false then
                ({ s with stagnated := true }, true)
              else (s, false)

/-- Folding the callback over a sequence of solver events, counting the
stop-this-level signals it issues. -/
def runCB (maxStagnation : ℚ) : CBState → List CBEvent → CBState × ℕ
  | s, [] => (s, 0)
  | s, e :: es =>
      ((runCB maxStagnation (stepCallback maxStagnation s e).1 es).1,
       (if (stepCallback maxStagnation s e).2 then 1 else 0) +
         (runCB maxStagnation (stepCallback maxStagnation s e).1 es).2)

/-- A stop signal is only issued from a not-yet-stagnated state, and it
marks the state stagnated. -/
theorem stepCallback_stagnated_of_signal (T : ℚ) (s : CBState) (e : CBEvent)
    (h : (stepCallback T s e).2 = true) :
    s.stagnated = false ∧ (stepCallback T s e).1.stagnated = true := by
  cases e with
  | multiobj k now => simp [stepCallback] at h
  | mip o now =>
      cases o with
      | none => simp [stepCallback] at h
      | some cur =>
          cases hbo : s.best_obj with
          | none => simp [stepCallback, hbo] at h
          | some b =>
              simp only [stepCallback, hbo] at h ⊢
              split_ifs at h ⊢ with h1 h2
              exact ⟨h2.2, rfl⟩

/-- A MIP report that produces no signal leaves the stagnated flag
unchanged. -/
theorem stepCallback_stagnated_of_no_signal (T : ℚ) (s : CBState)
    (e : CBEvent) (hm : isMip e = true)
    (h : (stepCallback T s e).2 = false) :
    (stepCallback T s e).1.stagnated = s.stagnated := by
  cases e with
  | multiobj k now => simp [isMip] at hm
  | mip o now =>
      cases o with
      | none => rfl
      | some cur =>
          cases hbo : s.best_obj with
          | none => simp [stepCallback, hbo]
          | some b =>
              simp only [stepCallback, hbo] at h ⊢
              split_ifs at h ⊢ with h1 h2
              · rfl
              · rfl

/-- Over any run of MIP progress reports, the callback signals at most
once if it starts not stagnated, and never if it starts stagnated. -/
theorem runCB_mip_le (T : ℚ) :
    ∀ (evs : List CBEvent) (s : CBState), (∀ e ∈ evs, isMip e = true) →
      (runCB T s evs).2 ≤ (if s.stagnated then 0 else 1) := by
  intro evs
  induction evs with
  | nil => intro s _; simp [runCB]
  | cons e es ih =>
      intro s h
      have he : isMip e = true := h e (List.mem_cons_self e es)
      have hes : ∀ x ∈ es, isMip x = true :=
        fun x hx => h x (List.mem_cons_of_mem e hx)
      have hrest := ih (stepCallback T s e).1 hes
      simp only [runCB]
      cases hsig : (stepCallback T s e).2 with
      | false =>
          rw [stepCallback_stagnated_of_no_signal T s e he hsig] at hrest
          simpa using hrest
      | true =>
          obtain ⟨h0, h1v⟩ := stepCallback_stagnated_of_signal T s e hsig
          have hr0 : (runCB T (stepCallback T s e).1 es).2 = 0 := by
            rw [h1v] at hrest; simpa using hrest
          rw [h0]
          simp [hr0]

/-!
Multi-objective submission (`model.setObjectiveN` calls, lines 336-338).
Gurobi identifies an objective by its `index`: a second `setObjectiveN`
call with an index already in use replaces that objective.  Blending by
`weight` happens across distinct indices that share a `priority`, and with
`ModelSense = MAXIMIZE` levels are maximized in decreasing priority order.
-/

/-- One Gurobi multi-objective slot: its priority, weight, and the value
of its linear expression as a function of the solution values. -/
structure ObjEntry (α : Type) where
  priority : ℤ
  weight : ℚ
  expr : α → ℚ

/-- Semantics of `Model.setObjectiveN(expr, index, priority, weight)`:
store the entry under `index`, replacing any entry previously stored
under the same index. -/
def setObjectiveN {α : Type} (store : List (ℕ × ObjEntry α)) (i : ℕ)
    (e : ObjEntry α) : List (ℕ × ObjEntry α) :=
  (store.filter (fun p => p.1 ≠ i)) ++ [(i, e)]

/-- Values of the three objective expressions in one solution. -/
structure ObjVals where
  n_clonal : ℚ
  tcn_error_clonal : ℚ
  mcn_error_clonal : ℚ

/-- The three `setObjectiveN` calls of the source, in order:
`(n_clonal, index=0, priority=2, weight=1)`,
`(-tcn_error_clonal, index=1, priority=1, weight=1-mcn_weight)`,
`(-mcn_error_clonal, index=1, priority=1, weight=mcn_weight)`. -/
def cnalignObjectives (mcn_weight : ℚ) : List (ℕ × ObjEntry ObjVals) :=
  setObjectiveN
    (setObjectiveN
      (setObjectiveN [] 0
        { priority := 2, weight := 1, expr := fun v => v.n_clonal })
      1 { priority := 1, weight := 1 - mcn_weight,
          expr := fun v => -v.tcn_error_clonal })
    1 { priority := 1, weight := mcn_weight,
        expr := fun v => -v.mcn_error_clonal }

/-- The blended objective the solver optimizes at priority level `p`:
the weighted sum of the stored objectives whose priority is `p`. -/
def levelObjective {α : Type} (store : List (ℕ × ObjEntry α)) (p : ℤ)
    (v : α) : ℚ :=
  (store.filter (fun e => e.2.priority = p)).foldl
    (fun acc e => acc + e.2.weight * e.2.expr v) 0

/-!
Build-phase control flow of `CNAlign` (credential parsing, variable
declaration, constraint construction).  The trace records, in order, the
externally observable phases: a raised exception (`fatalError`), the
declaration of the decision variables, and the completion of model
construction.
-/

/-- Python's `str.split(sep)` for a one-character separator, on the
line's characters: always returns at least one group, and an empty group
between adjacent separators. -/
def pySplit (sep : Char) : List Char → List (List Char)
  | [] => [[]]
  | ch :: rest =>
      let r := pySplit sep rest
      if ch = sep then [] :: r
      else (ch :: r.headD []) :: r.tail

/-- One decimal digit of Python's `int()`. -/
def pyDigit (c : Char) : Option ℕ :=
  if ('0' ≤ c ∧ c ≤ '9') then some (c.toNat - Char.toNat '0') else none

/-- Accumulator loop of the decimal parse. -/
def pyNatAux : List Char → ℕ → Option ℕ
  | [], acc => some acc
  | c :: cs, acc =>
      match pyDigit c with
      | none => none
      | some d => pyNatAux cs (10 * acc + d)

/-- Nonempty all-digit decimal parse. -/
def pyNat : List Char → Option ℕ
  | [] => none
  | cs => pyNatAux cs 0

/-- Python's `int(s)` on the characters of `s` (optional sign, then
decimal digits); `none` models the raised `ValueError`. -/
def pyInt : List Char → Option ℤ
  | '-' :: rest => (pyNat rest).map (fun n => -(n : ℤ))
  | cs => (pyNat cs).map (fun n => (n : ℤ))

/-- Credential parsing at the top of `CNAlign`:
`lines[3].split('=')[1]`, `lines[4].split('=')[1]`,
`int(lines[5].split('=')[1])`, on each line's characters.  `none` models
the raised `IndexError`/`ValueError` on a malformed credential source. -/
def parseParams (lines : List (List Char)) :
    Option (List Char × List Char × ℤ) := do
  let l3 ← lines.get? 3
  let acc ← (pySplit '=' l3).get? 1
  let l4 ← lines.get? 4
  let sec ← (pySplit '=' l4).get? 1
  let l5 ← lines.get? 5
  let lid ← (pySplit '=' l5).get? 1
  let n ← pyInt lid
  pure (acc, sec, n)

/-- Observable phases of one `CNAlign` invocation up to the end of model
construction. -/
inductive BuildEvent where
  | fatalError
  | varsDeclared
  | modelDone
deriving DecidableEq

/-- Phase trace of the model build.  The credential source is parsed
first; the configuration bounds are never validated (min/max ploidy and
purity are passed directly as variable bounds); all decision variables
are then declared; the constraint loop afterwards looks up `dat.loc[t,s]`
for every (sample, segment) pair, raising (`fatalError`) on a missing
combination — strictly after the variables were declared. -/
def buildTrace {nS nG : ℕ} (licenseLines : List (List Char)) (cfg : Config)
    (dat? : Fin nS → Fin nG → Option CellData) : List BuildEvent :=
  match parseParams licenseLines with
  | none => [.fatalError]
  | some _ =>
      .varsDeclared ::
        (if ∀ t s, (dat? t s).isSome = true then [.modelDone]
         else [.fatalError])

/-!
Solution-pool extractor (lines 352-427 of the source).
-/

/-- Rounding to the nearest integer with ties to even, the behaviour of
pandas/numpy `round`. -/
def roundHalfEven (q : ℚ) : ℤ :=
  let f := ⌊q⌋
  let r := q - f
  if r < 1/2 then f
  else if 1/2 < r then f + 1
  else if f % 2 = 0 then f else f + 1

/-- Rounding to 6 decimal places (`DataFrame.round(6)`). -/
def round6 (q : ℚ) : ℚ := (roundHalfEven (q * 1000000) : ℚ) / 1000000

/-- Per-solution variable values read from the solver's solution pool
(`v.Xn` with `SolutionNumber = i`), for `k` pooled solutions. -/
structure SolPool (nS nG k : ℕ) where
  n_clonal : Fin k → ℚ
  tcn_error_clonal : Fin k → ℚ
  mcn_error_clonal : Fin k → ℚ
  pl : Fin k → Fin nS → ℚ
  z : Fin k → Fin nS → ℚ
  allmatch : Fin k → Fin nG → ℚ
  tcn : Fin k → Fin nS → Fin nG → ℚ
  mcn : Fin k → Fin nS → Fin nG → ℚ

/-- Variable name of the cell (t, s), as Gurobi renders it. -/
def cellName (base : String) (t s : ℕ) : String :=
  base ++ "[" ++ toString t ++ "," ++ toString s ++ "]"

/-- Variable name of a per-sample or per-segment variable. -/
def unitName (base : String) (t : ℕ) : String :=
  base ++ "[" ++ toString t ++ "]"

/-- The solution-pool extractor: the objective summary (`Obj1` from the
stored `n_clonal` expression, `Obj2` recomputed per solution as
`-(1-mcn_weight)*tcn_error_clonal - mcn_weight*mcn_error_clonal` from the
solution's own variable values), then the `pl[`-prefixed rows, the `z[`
rows reciprocated and renamed `pu[`, the `allmatch[` rows, the `tcn[`
rows and the `mcn[` rows, concatenated in that order, with every value
column finally rounded to 6 decimal places
(`out.iloc[:, 1:] = out.iloc[:, 1:].round(6)`). -/
def extractSolutions {nS nG k : ℕ} (mcn_weight : ℚ) (P : SolPool nS nG k) :
    List (String × List ℚ) :=
  let cols : (Fin k → ℚ) → List ℚ := fun f => (List.finRange k).map f
  let obj_df : List (String × List ℚ) :=
    [("Obj1", cols P.n_clonal),
     ("Obj2", cols (fun i =>
        -(1 - mcn_weight) * P.tcn_error_clonal i
          - mcn_weight * P.mcn_error_clonal i))]
  let pl_df : List (String × List ℚ) :=
    (List.finRange nS).map (fun t =>
      (unitName "pl" t.val, cols (fun i => P.pl i t)))
  let pu_df : List (String × List ℚ) :=
    (List.finRange nS).map (fun t =>
      (unitName "pu" t.val, cols (fun i => 1 / P.z i t)))
  let allmatch_df : List (String × List ℚ) :=
    (List.finRange nG).map (fun s =>
      (unitName "allmatch" s.val, cols (fun i => P.allmatch i s)))
  let tcn_df : List (String × List ℚ) :=
    ((List.finRange nS).map (fun t =>
      (List.finRange nG).map (fun s =>
        (cellName "tcn" t.val s.val, cols (fun i => P.tcn i t s))))).flatten
  let mcn_df : List (String × List ℚ) :=
    ((List.finRange nS).map (fun t =>
      (List.finRange nG).map (fun s =>
        (cellName "mcn" t.val s.val, cols (fun i => P.mcn i t s))))).flatten
  (obj_df ++ pl_df ++ pu_df ++ allmatch_df ++ tcn_df ++ mcn_df).map
    (fun r => (r.1, r.2.map round6))

/-- The output table as the specification describes it: rows stacked in
the order [objective summary (Obj1, Obj2), per-sample ploidy, per-sample
purity (the reciprocal of the solution's `z`), per-segment allmatch,
per-cell TCN, per-cell MCN], one column per pooled solution, every value
rounded to 6 decimal places, with Obj2 recomputed per solution as the
weighted combination of that solution's own error totals. -/
def specTable {nS nG k : ℕ} (mcn_weight : ℚ) (P : SolPool nS nG k) :
    List (String × List ℚ) :=
  [("Obj1", (List.finRange k).map (fun i => round6 (P.n_clonal i))),
   ("Obj2", (List.finRange k).map (fun i =>
      round6 (-(1 - mcn_weight) * P.tcn_error_clonal i
        - mcn_weight * P.mcn_error_clonal i)))]
  ++ (List.finRange nS).map (fun t =>
      (unitName "pl" t.val,
        (List.finRange k).map (fun i => round6 (P.pl i t))))
  ++ (List.finRange nS).map (fun t =>
      (unitName "pu" t.val,
        (List.finRange k).map (fun i => round6 (1 / P.z i t))))
  ++ (List.finRange nG).map (fun s =>
      (unitName "allmatch" s.val,
        (List.finRange k).map (fun i => round6 (P.allmatch i s))))
  ++ ((List.finRange nS).map (fun t =>
      (List.finRange nG).map (fun s =>
        (cellName "tcn" t.val s.val,
          (List.finRange k).map (fun i => round6 (P.tcn i t s)))))).flatten
  ++ ((List.finRange nS).map (fun t =>
      (List.finRange nG).map (fun s =>
        (cellName "mcn" t.val s.val,
          (List.finRange k).map (fun i => round6 (P.mcn i t s)))))).flatten

/-!
Concrete one-sample, one-segment instances used to evaluate the theorems
below on explicit inputs.
-/

/-- A configuration with ploidy range [1,4], purity range [1/5,1], all
six deltas 1/10, `rho = 1`, `mcn_weight = 1/2`, `obj2_clonalonly`
disabled. -/
def cfg0 : Config :=
  { min_ploidy := 1, max_ploidy := 4, min_purity := 1/5, max_purity := 1,
    min_aligned_seg_mb := 5, max_homdel_mb := 100,
    delta_tcn_to_int := 1/10, delta_tcn_to_avg := 1/10,
    delta_tcnavg_to_int := 1/10,
    delta_mcn_to_int := 1/10, delta_mcn_to_avg := 1/10,
    delta_mcnavg_to_int := 1/10,
    mcn_weight := 1/2, rho := 1, min_cna_segments_per_sample := 0,
    obj2_clonalonly := false }

/-- `cfg0` with `rho` lowered to 1/2. -/
def cfgH : Config := { cfg0 with rho := 1/2 }

/-- One cell with `logR = 1` (so `c = 2`), `BAF = 1/2`, germline copies 2,
length 10 Mb: a clean 2+2 amplification. -/
def dat0 : Fin 1 → Fin 1 → CellData :=
  fun _ _ => { c := 2, BAF := some (1/2), GC := 2, mb := 10 }

/-- A full variable assignment for `dat0`: ploidy 2, purity 1 (`z = 1`),
`n1 = mcn = 2`, `tcn = 4`, all integer-closeness and match flags set,
both gain flags set (a CNA), `allmatch` left at 0. -/
def A0 : Assign 1 1 :=
  { n1 := fun _ _ => 2, tcn := fun _ _ => 4, tcn_avg := fun _ _ => 4,
    tcn_int := fun _ _ => 4, tcn_int_err := fun _ _ => 0,
    tcn_spread := fun _ _ => 0, tcn_avg_int := fun _ _ => 4,
    tcn_avg_int_err := fun _ _ => 0,
    tcn_close_to_int := fun _ _ => true, tcn_close_to_avg := fun _ _ => true,
    tcn_avg_close_to_int := fun _ _ => true, tcn_match := fun _ _ => true,
    tcn_match_and_avg_at_int := fun _ _ => true,
    tcn_gain := fun _ _ => true, tcn_loss := fun _ _ => false,
    tcn_cna := fun _ _ => true, tcn_error_clonal := 0,
    mcn := fun _ _ => 2, mcn_avg := fun _ _ => 2,
    mcn_int := fun _ _ => 2, mcn_int_err := fun _ _ => 0,
    mcn_spread := fun _ _ => 0, mcn_avg_int := fun _ _ => 2,
    mcn_avg_int_err := fun _ _ => 0,
    mcn_close_to_int := fun _ _ => true, mcn_close_to_avg := fun _ _ => true,
    mcn_avg_close_to_int := fun _ _ => true, mcn_match := fun _ _ => true,
    mcn_match_and_avg_at_int := fun _ _ => true,
    mcn_gain := fun _ _ => true, mcn_loss := fun _ _ => false,
    mcn_cna := fun _ _ => true, mcn_error_clonal := 0,
    match_both := fun _ _ => true,
    match_both_and_large_enough := fun _ _ => true,
    match_both_and_large_enough_and_cna := fun _ _ => true,
    is_homdel := fun _ _ => false, is_cna := fun _ _ => true,
    large_enough := fun _ _ => true,
    allmatch := fun _ => false,
    pl := fun _ => 2, z := fun _ => 1, homdel_mb := fun _ => 0,
    n_cna_segments_per_sample := fun _ => 1,
    avg_ploidy := 2, n_clonal := 0,
    tcn_int_err_term := fun _ _ => 0, mcn_int_err_term := fun _ _ => 0 }

/-- `A0` with `allmatch` set and `n_clonal = 1`. -/
def A1 : Assign 1 1 :=
  { A0 with allmatch := fun _ => true, n_clonal := 1 }

theorem exFeasible0 : Feasible cfg0 dat0 A0 := by
  norm_num [Feasible, VarBounds, CellConstraints, SegmentConstraints,
    SampleConstraints, GlobalConstraints, ErrorConstraints, cfg0, dat0, A0,
    recodeBAF, b2q, Fin.forall_fin_one, Fin.sum_univ_one]

theorem exFeasible1 : Feasible cfg0 dat0 A1 := by
  norm_num [Feasible, VarBounds, CellConstraints, SegmentConstraints,
    SampleConstraints, GlobalConstraints, ErrorConstraints, cfg0, dat0, A1, A0,
    recodeBAF, b2q, Fin.forall_fin_one, Fin.sum_univ_one]

theorem exFeasible1H : Feasible cfgH dat0 A1 := by
  norm_num [Feasible, VarBounds, CellConstraints, SegmentConstraints,
    SampleConstraints, GlobalConstraints, ErrorConstraints, cfgH, cfg0, dat0,
    A1, A0, recodeBAF, b2q, Fin.forall_fin_one, Fin.sum_univ_one]

theorem exFeasible1H1 : Feasible { cfgH with rho := 1 } dat0 A1 := by
  norm_num [Feasible, VarBounds, CellConstraints, SegmentConstraints,
    SampleConstraints, GlobalConstraints, ErrorConstraints, cfgH, cfg0, dat0,
    A1, A0, recodeBAF, b2q, Fin.forall_fin_one, Fin.sum_univ_one]

/-- Configuration whose purity range [2/5, 1/2] forces `z ∈ [2, 5/2]`. -/
def cfgN : Config := { cfg0 with min_purity := 2/5, max_purity := 1/2 }

/-- A cell with a deep-deletion signal: `c = 2**logR = 1/100`, missing
BAF, germline copies 2. -/
def datN : Fin 1 → Fin 1 → CellData :=
  fun _ _ => { c := 1/100, BAF := none, GC := 2, mb := 10 }

/-- A well-formed credential source: six lines, the last three of the
shape `KEY=value` with an integer licence id. -/
def goodLicense : List (List Char) :=
  [[], [], [], ['W', '=', 'a'], ['S', '=', 'b'], ['L', '=', '1', '2', '3']]

/-- A malformed credential source: an empty file. -/
def badLicense : List (List Char) := []

/-- The input table with every (sample, segment) combination present. -/
def datFull : Fin 1 → Fin 1 → Option CellData := fun t s => some (dat0 t s)

/-- A configuration with out-of-order ploidy bounds (`min 3 > max 2`). -/
def cfgBadBounds : Config := { cfg0 with min_ploidy := 3, max_ploidy := 2 }

/-!
Claim theorems.
-/

/-- C3 (code bug): the source intends the lower lexicographic level to be
the blend `(1-mcn_weight)*(-tcn_error_clonal) +
mcn_weight*(-mcn_error_clonal)` (its header comment describes objective
2a/2b over both TCN and MCN, and `model._obj2_expr` and the extractor
recompute exactly that blend), but both error objectives are submitted
with the same index 1, so the second `setObjectiveN` call replaces the
first: the store the solver receives holds only
`mcn_weight * (-mcn_error_clonal)` at priority 1, and at
`mcn_weight = 1/2` the level objective of a solution with
`tcn_error_clonal = 2, mcn_error_clonal = 0` is `0`, while the intended
blend is `-1`. -/
theorem objective_index_overwrite_bug :
    cnalignObjectives (1/2)
      = [(0, { priority := 2, weight := 1, expr := fun v => v.n_clonal }),
         (1, { priority := 1, weight := 1/2,
               expr := fun v => -v.mcn_error_clonal })] ∧
    levelObjective (cnalignObjectives (1/2)) 1
      { n_clonal := 0, tcn_error_clonal := 2, mcn_error_clonal := 0 } = 0 ∧
    (1 - (1/2 : ℚ)) * (-(2 : ℚ)) + (1/2 : ℚ) * (-(0 : ℚ)) = -1 ∧
    ((0 : ℚ) ≠ -1) := by
  refine ⟨rfl, ?_, by norm_num, by norm_num⟩
  norm_num [levelObjective, cnalignObjectives, setObjectiveN]

/-- Callback state with stored best bound 10 at time 0, not stagnated. -/
def cbWorse : CBState := ⟨0, 0, some 10, false⟩

/-- Callback state with stored best bound 5 at time 0, not stagnated. -/
def cbFresh : CBState := ⟨1, 0, some 5, false⟩

/-- Callback state with stored best bound 3 at time 0, not stagnated. -/
def cbImp : CBState := ⟨1, 0, some 3, false⟩

/-- Callback state marked stagnated at time 5. -/
def cbStag : CBState := ⟨0, 5, some 3, true⟩

/-- Callback state at the start of a run. -/
def cbStart : CBState := ⟨0, 0, some 3, false⟩

/-- C4 (counterexample): a report that is strictly worse than the stored
best by more than `1e-5` still updates the stored best bound and the
last-improvement timestamp, because the source tests
`abs(current_obj - self.best_obj) > 1e-5`: from stored best 10, the worse
report 5 at time 1 becomes the new best with timestamp 1. -/
theorem stagnation_update_on_worse_report_cex :
    (5 : ℚ) < 10 ∧
    (stepCallback 100 cbWorse (.mip (some 5) 1)).1.best_obj = some 5 ∧
    (stepCallback 100 cbWorse (.mip (some 5) 1)).1.last_improve_time = 1 := by
  have h : |(5 : ℚ) - 10| > 1/100000 := by
    rw [show (5 : ℚ) - 10 = -5 by norm_num, abs_neg,
      abs_of_nonneg (by norm_num : (0 : ℚ) ≤ 5)]
    norm_num
  refine ⟨by norm_num, ?_, ?_⟩ <;>
    · simp only [cbWorse, stepCallback]
      rw [if_pos h]

/-- C4 (amended): on a periodic report with a finite incumbent, the
stored best bound and the last-improvement timestamp are updated exactly
when the reported value differs from the stored best by more than `1e-5`
in absolute value — whether it improves or worsens; otherwise both are
left unchanged. -/
theorem stagnation_update_iff_abs_difference (T : ℚ) (s : CBState)
    (b cur now : ℚ) (hb : s.best_obj = some b) :
    (|cur - b| > 1/100000 →
        (stepCallback T s (.mip (some cur) now)).1.best_obj = some cur ∧
        (stepCallback T s (.mip (some cur) now)).1.last_improve_time = now) ∧
    (¬ |cur - b| > 1/100000 →
        (stepCallback T s (.mip (some cur) now)).1.best_obj = some b ∧
        (stepCallback T s (.mip (some cur) now)).1.last_improve_time
          = s.last_improve_time) := by
  simp only [stepCallback, hb]
  constructor
  · intro h
    rw [if_pos h]
    exact ⟨rfl, rfl⟩
  · intro h
    rw [if_neg h]
    split_ifs
    · exact ⟨rfl, rfl⟩
    · exact ⟨hb, rfl⟩

/-- Witness for the amended C4 statement at a concrete state and report. -/
theorem stagnation_update_iff_abs_difference_witness :
    (stepCallback 100 cbWorse (.mip (some 5) 1)).1.best_obj = some 5 :=
  ((stagnation_update_iff_abs_difference 100 cbWorse 10 5 1 rfl).1
    (by
      rw [show (5 : ℚ) - 10 = -5 by norm_num, abs_neg,
        abs_of_nonneg (by norm_num : (0 : ℚ) ≤ 5)]
      norm_num)).1

/-- C5: temporal behaviour of the stagnation controller.  (1) After a
level-transition event, any run of periodic MIP reports produces at most
one stop-this-level signal.  (2) A signal is only ever emitted on a MIP
report whose time exceeds the stored last-improvement time by more than
the stagnation timeout.  (3) A report improving on the stored best by
more than `1e-5` resets the stagnation clock and the stored best.  (4) A
level-transition event resets the best bound to unbounded, the timestamp
to now, and clears the stagnated flag. -/
theorem stagnation_controller_temporal (T : ℚ) :
    (∀ (s : CBState) (k : ℤ) (t0 : ℚ) (evs : List CBEvent),
        (∀ e ∈ evs, isMip e = true) →
        (runCB T (stepCallback T s (.multiobj k t0)).1 evs).2 ≤ 1) ∧
    (∀ (s : CBState) (e : CBEvent), (stepCallback T s e).2 = true →
        ∃ cur now, e = CBEvent.mip (some cur) now ∧
          now - s.last_improve_time > T) ∧
    (∀ (s : CBState) (b cur now : ℚ), s.best_obj = some b →
        cur - b > 1/100000 →
        (stepCallback T s (.mip (some cur) now)).1.last_improve_time = now ∧
        (stepCallback T s (.mip (some cur) now)).1.best_obj = some cur) ∧
    (∀ (s : CBState) (k : ℤ) (now : ℚ),
        (stepCallback T s (.multiobj k now)).1
          = { obj_count := k, last_improve_time := now, best_obj := none,
              stagnated := false }) := by
  refine ⟨?_, ?_, ?_, ?_⟩
  · intro s k t0 evs h
    have hst : (stepCallback T s (.multiobj k t0)).1.stagnated = false := rfl
    have := runCB_mip_le T evs (stepCallback T s (.multiobj k t0)).1 h
    rw [hst] at this
    simpa using this
  · intro s e h
    cases e with
    | multiobj k now => simp [stepCallback] at h
    | mip o now =>
        cases o with
        | none => simp [stepCallback] at h
        | some cur =>
            cases hbo : s.best_obj with
            | none => simp [stepCallback, hbo] at h
            | some b =>
                simp only [stepCallback, hbo] at h
                split_ifs at h with h1 h2
                exact ⟨cur, now, rfl, h2.1⟩
  · intro s b cur now hb himp
    have h : |cur - b| > 1/100000 := lt_of_lt_of_le himp (le_abs_self _)
    simp only [stepCallback, hb]
    rw [if_pos h]
    exact ⟨rfl, rfl⟩
  · intro s k now
    rfl

/-- Witness for C5 at concrete states, times and event sequences. -/
theorem stagnation_controller_temporal_witness :
    (runCB 10 (stepCallback 10 cbStart (.multiobj 1 0)).1
      [.mip (some 5) 1, .mip (some 5) 20, .mip (some 5) 40]).2 ≤ 1 ∧
    (∃ cur now, CBEvent.mip (some (5 : ℚ)) 20 = CBEvent.mip (some cur) now ∧
        now - cbFresh.last_improve_time > 10) ∧
    (stepCallback 10 cbImp (.mip (some 5) 7)).1.last_improve_time = 7 ∧
    (stepCallback 10 cbStag (.multiobj 1 9)).1
      = ⟨1, 9, none, false⟩ := by
  refine ⟨?_, ?_, ?_, ?_⟩
  · exact (stagnation_controller_temporal 10).1 cbStart 1 0 _ (by decide)
  · refine (stagnation_controller_temporal 10).2.1 cbFresh
      (.mip (some 5) 20) ?_
    simp only [cbFresh, stepCallback]
    rw [if_neg (by norm_num), if_pos (by norm_num)]
  · exact ((stagnation_controller_temporal 10).2.2.1 cbImp 3 5 7 rfl
      (by norm_num)).1
  · exact (stagnation_controller_temporal 10).2.2.2 cbStag 1 9

/-- C6 (counterexample): a configuration with out-of-order ploidy bounds
(`min_ploidy = 3 > 2 = max_ploidy`) is not detected at all: with a
well-formed credential source and a complete input table, the build runs
to completion — no fatal report happens before (or after) the decision
variables are declared. -/
theorem no_bounds_validation_cex :
    cfgBadBounds.min_ploidy > cfgBadBounds.max_ploidy ∧
    buildTrace goodLicense cfgBadBounds datFull
      = [BuildEvent.varsDeclared, BuildEvent.modelDone] := by
  constructor
  · norm_num [cfgBadBounds, cfg0]
  · decide

/-- C6 (amended): a malformed credential source is fatal before any
decision variable is declared; a missing (sample, segment) combination is
fatal only during constraint construction, after all decision variables
were declared; the configuration bounds are never validated (the trace
does not depend on them); and non-finite measurements are not checked
(a NaN BAF is instead recoded to the sentinel `-9`). -/
theorem build_error_order {nS nG : ℕ} (lines : List (List Char))
    (cfg : Config) (dat? : Fin nS → Fin nG → Option CellData) :
    (parseParams lines = none →
        buildTrace lines cfg dat? = [BuildEvent.fatalError]) ∧
    (∀ p, parseParams lines = some p →
        ¬ (∀ t s, (dat? t s).isSome = true) →
        buildTrace lines cfg dat?
          = [BuildEvent.varsDeclared, BuildEvent.fatalError]) ∧
    (∀ p, parseParams lines = some p →
        (∀ t s, (dat? t s).isSome = true) →
        buildTrace lines cfg dat?
          = [BuildEvent.varsDeclared, BuildEvent.modelDone]) := by
  refine ⟨?_, ?_, ?_⟩
  · intro h
    unfold buildTrace
    rw [h]
  · intro p hp hmiss
    unfold buildTrace
    rw [hp]
    rw [if_neg hmiss]
  · intro p hp hfull
    unfold buildTrace
    rw [hp]
    rw [if_pos hfull]

/-- Witness for the amended C6 statement: the empty credential file is
fatal immediately, and a complete table reaches `modelDone`. -/
theorem build_error_order_witness :
    buildTrace badLicense cfg0 datFull = [BuildEvent.fatalError] ∧
    buildTrace goodLicense cfg0 datFull
      = [BuildEvent.varsDeclared, BuildEvent.modelDone] :=
  ⟨(build_error_order badLicense cfg0 datFull).1 rfl,
   (build_error_order goodLicense cfg0 datFull).2.2
     (['a'], ['b'], (123 : ℤ)) (by decide) (by decide)⟩

/-- The `n1` value the build loop's constraint forces, as a function of
the cell data and the sample's ploidy and inverse purity (the two
branches of the source `if b != -9:`). -/
def n1Formula (d : CellData) (p zz : ℚ) : ℚ :=
  let b := recodeBAF d.BAF
  let c := d.c
  let c1 := 2 * c
  let g := d.GC
  if b ≠ -9 then
    -b*c*p + b*c1 - b*c1*zz + c*p - c1 + c1*zz + g - g*zz - 1 + zz
  else zz*c*2 + c*p - 2*c - g*zz + g

/-- In every cell the constrained `n1` equals `n1Formula` at the
sample's ploidy and inverse purity. -/
theorem cell_n1_formula {nS nG : ℕ} (cfg : Config) (d : CellData)
    (A : Assign nS nG) (t : Fin nS) (s : Fin nG)
    (h : CellConstraints cfg d A t s) :
    A.n1 t s = n1Formula d (A.pl t) (A.z t) := by
  simp only [CellConstraints] at h
  obtain ⟨-, hB, hNB, -⟩ := h
  simp only [n1Formula]
  by_cases hb : recodeBAF d.BAF = -9
  · rw [if_neg (not_not_intro hb)]
    exact (hNB hb).1
  · rw [if_pos hb]
    exact (hB hb).1

/-- The `n_clonal` variable of a feasible assignment respects its upper
bound, the number of segments. -/
theorem feasible_nclonal_le {nS nG : ℕ} {cfg : Config}
    {dat : Fin nS → Fin nG → CellData} {A : Assign nS nG}
    (hF : Feasible cfg dat A) : A.n_clonal ≤ (nG : ℤ) := by
  unfold Feasible VarBounds at hF
  obtain ⟨⟨-, -, -, -, -, -, -, -, -, -, -, -, -, -, -, -, -, -, -, -, -, -,
    -, hub⟩, -⟩ := hF
  exact hub

/-- Raising `rho` only tightens the `allmatch` indicator: a feasible
assignment at a larger `rho` stays feasible at the configured one. -/
theorem feasible_of_rho_le {nS nG : ℕ} (cfg : Config)
    (dat : Fin nS → Fin nG → CellData) (A : Assign nS nG) (r : ℚ)
    (hr : cfg.rho ≤ r) (hF : Feasible { cfg with rho := r } dat A) :
    Feasible cfg dat A := by
  unfold Feasible at hF ⊢
  obtain ⟨hVB, hCells, hSeg, hSamp, hGlob, hErr⟩ := hF
  refine ⟨hVB, hCells, ?_, hSamp, hGlob, hErr⟩
  unfold SegmentConstraints at hSeg ⊢
  intro s hs
  have h2 := hSeg s hs
  have hn : (0 : ℚ) ≤ (nS : ℚ) := Nat.cast_nonneg nS
  calc cfg.rho * (nS : ℚ) ≤ r * (nS : ℚ) := mul_le_mul_of_nonneg_right hr hn
    _ ≤ _ := h2

/-- C1: in every feasible assignment of the model, every cell satisfies
`tcn = n1 + mcn` exactly, and `n1`/`mcn` satisfy exactly the source's
algebraic formulas: with BAF `b` available (recoded value not `-9`),
`n1 = -b*c*pl + b*c1 - b*c1*z + c*pl - c1 + c1*z + g - g*z - 1 + z` and
`mcn = b*c*pl - b*c1 + b*c1*z + 1 - z`; with BAF unavailable,
`n1 = z*c*2 + c*pl - 2*c - g*z + g` and `mcn = 0`
(where `c = 2**logR` and `c1 = 2**(logR+1) = 2*c`). -/
theorem tcn_identity_and_signal_formulas {nS nG : ℕ} (cfg : Config)
    (dat : Fin nS → Fin nG → CellData) (A : Assign nS nG)
    (hF : Feasible cfg dat A) (t : Fin nS) (s : Fin nG) :
    A.tcn t s = A.n1 t s + A.mcn t s ∧
    (recodeBAF (dat t s).BAF ≠ -9 →
        A.n1 t s
          = -recodeBAF (dat t s).BAF * (dat t s).c * A.pl t
              + recodeBAF (dat t s).BAF * (2 * (dat t s).c)
              - recodeBAF (dat t s).BAF * (2 * (dat t s).c) * A.z t
              + (dat t s).c * A.pl t - 2 * (dat t s).c
              + 2 * (dat t s).c * A.z t
              + (dat t s).GC - (dat t s).GC * A.z t - 1 + A.z t ∧
        A.mcn t s
          = recodeBAF (dat t s).BAF * (dat t s).c * A.pl t
              - recodeBAF (dat t s).BAF * (2 * (dat t s).c)
              + recodeBAF (dat t s).BAF * (2 * (dat t s).c) * A.z t
              + 1 - A.z t) ∧
    (recodeBAF (dat t s).BAF = -9 →
        A.n1 t s
          = A.z t * (dat t s).c * 2 + (dat t s).c * A.pl t
              - 2 * (dat t s).c - (dat t s).GC * A.z t + (dat t s).GC ∧
        A.mcn t s = 0) := by
  unfold Feasible at hF
  obtain ⟨-, hCells, -, -, -, -⟩ := hF
  have h := hCells t s
  simp only [CellConstraints] at h
  obtain ⟨-, hB, hNB, hsum, -⟩ := h
  refine ⟨hsum, fun hbne => ?_, fun hbe => ?_⟩
  · exact ⟨by linear_combination (hB hbne).1, by linear_combination (hB hbne).2⟩
  · exact ⟨by linear_combination (hNB hbe).1, (hNB hbe).2⟩

/-- Witness for C1 at the concrete feasible instance. -/
theorem tcn_identity_and_signal_formulas_witness :
    A0.tcn 0 0 = A0.n1 0 0 + A0.mcn 0 0 :=
  (tcn_identity_and_signal_formulas cfg0 dat0 A0 exFeasible0 0 0).1

/-- C2 (counterexample): `allmatch[s]` is not an if-and-only-if function
of its inputs: the assignment `A0` is feasible, its single cell counts
toward clonality (the eligible-and-matching count 1 reaches
`rho * n_samples = 1`), and yet `allmatch` is 0 — Gurobi's indicator
constraint binds only in the direction `allmatch = 1 → count ≥ rho*n`. -/
theorem allmatch_not_iff_cex :
    Feasible cfg0 dat0 A0 ∧
    (∑ t, b2q (A0.match_both_and_large_enough_and_cna t 0))
      ≥ cfg0.rho * ((1 : ℕ) : ℚ) ∧
    A0.allmatch 0 = false := by
  refine ⟨exFeasible0, ?_, rfl⟩
  norm_num [A0, b2q, cfg0, Fin.sum_univ_one]

/-- C2 (amended): in every feasible assignment, `allmatch[s] = 1` forces
the eligible-and-matching count to reach `rho` times the number of
samples (one direction only — the indicator-defined binaries may be 0
even when their condition holds), while every `addGenConstrAnd` /
`addGenConstrOr` predicate (match, match-and-avg-at-int, cna, match_both,
is_cna and the combined eligibility flags) is an exact logical function
of its inputs. -/
theorem allmatch_indicator_one_directional {nS nG : ℕ} (cfg : Config)
    (dat : Fin nS → Fin nG → CellData) (A : Assign nS nG)
    (hF : Feasible cfg dat A) :
    (∀ s, A.allmatch s = true →
        (∑ t, b2q (A.match_both_and_large_enough_and_cna t s))
          ≥ cfg.rho * (nS : ℚ)) ∧
    (∀ t s,
        A.tcn_match t s = (A.tcn_close_to_int t s && A.tcn_close_to_avg t s) ∧
        A.tcn_match_and_avg_at_int t s
          = (A.tcn_match t s && A.tcn_avg_close_to_int t s) ∧
        A.tcn_cna t s = (A.tcn_gain t s || A.tcn_loss t s) ∧
        A.mcn_match t s = (A.mcn_close_to_int t s && A.mcn_close_to_avg t s) ∧
        A.mcn_match_and_avg_at_int t s
          = (A.mcn_match t s && A.mcn_avg_close_to_int t s) ∧
        A.mcn_cna t s = (A.mcn_gain t s || A.mcn_loss t s) ∧
        A.match_both t s
          = (A.tcn_match_and_avg_at_int t s
              && A.mcn_match_and_avg_at_int t s) ∧
        A.is_cna t s = (A.tcn_cna t s || A.mcn_cna t s) ∧
        A.match_both_and_large_enough t s
          = (A.match_both t s && A.large_enough t s) ∧
        A.match_both_and_large_enough_and_cna t s
          = (A.match_both_and_large_enough t s && A.is_cna t s)) := by
  unfold Feasible at hF
  obtain ⟨-, hCells, hSeg, -, -, -⟩ := hF
  refine ⟨hSeg, fun t s => ?_⟩
  have h := hCells t s
  simp only [CellConstraints] at h
  obtain ⟨-, -, -, -, -, -, -, -, -, -, -, -, -, -, -, -, -, -, h19, h20, -,
    -, h23, -, -, -, -, -, -, -, -, -, -, -, -, -, -, h38, h39, -, -, h42,
    h43, h44, -, h46, h47⟩ := h
  exact ⟨h19, h20, h23, h38, h39, h42, h43, h44, h46, h47⟩

/-- Witness for the amended C2 statement at the concrete feasible
instance with `allmatch` set. -/
theorem allmatch_indicator_one_directional_witness :
    (∑ t, b2q (A1.match_both_and_large_enough_and_cna t 0))
      ≥ cfg0.rho * ((1 : ℕ) : ℚ) :=
  (allmatch_indicator_one_directional cfg0 dat0 A1 exFeasible1).1 0 rfl

/-- C7: on a fixed instance, raising `rho` from 1/2 to 1 cannot increase
the optimal value of `n_clonal`: any assignment feasible at `rho = 1` is
feasible at `rho = 1/2`, so the optimum at `rho = 1` is at most the
optimum at `rho = 1/2`. -/
theorem n_clonal_monotone_in_rho {nS nG : ℕ} (cfg : Config)
    (dat : Fin nS → Fin nG → CellData) (v w : ℤ)
    (hrho : cfg.rho = 1/2)
    (hhalf : @OptimalNClonal nS nG cfg dat v)
    (hone : OptimalNClonal { cfg with rho := 1 } dat w) :
    w ≤ v := by
  obtain ⟨A, hFA, hval⟩ := hone.1
  have hF2 : Feasible cfg dat A :=
    feasible_of_rho_le cfg dat A 1 (by rw [hrho]; norm_num) hFA
  have hle := hhalf.2 A hF2
  omega

/-- Witness for C7: at the concrete instance the optima at `rho = 1/2`
and `rho = 1` are both 1, and indeed 1 ≤ 1. -/
theorem n_clonal_monotone_in_rho_witness : (1 : ℤ) ≤ 1 :=
  n_clonal_monotone_in_rho cfgH dat0 1 1 rfl
    ⟨⟨A1, exFeasible1H, rfl⟩,
     fun _ hF => by simpa using feasible_nclonal_le hF⟩
    ⟨⟨A1, exFeasible1H1, rfl⟩,
     fun _ hF => by simpa using feasible_nclonal_le hF⟩

/-- C9: in every feasible assignment the continuous copy numbers `n1`,
`tcn`, `mcn` and the rounded integers `tcn_int`, `mcn_int` are
nonnegative (they are declared without an explicit lower bound, so they
carry the solver's default lower bound 0); consequently a cell whose
signal algebra forces `n1 < 0` for every ploidy and inverse purity in
range makes the whole model infeasible. -/
theorem default_lower_bounds_nonneg {nS nG : ℕ} (cfg : Config)
    (dat : Fin nS → Fin nG → CellData) :
    (∀ A : Assign nS nG, Feasible cfg dat A → ∀ t s,
        0 ≤ A.n1 t s ∧ 0 ≤ A.tcn t s ∧ 0 ≤ A.mcn t s ∧
        0 ≤ A.tcn_int t s ∧ 0 ≤ A.mcn_int t s) ∧
    (∀ t s, (∀ p zz, cfg.min_ploidy ≤ p → p ≤ cfg.max_ploidy →
          1 / cfg.max_purity ≤ zz → zz ≤ 1 / cfg.min_purity →
          n1Formula (dat t s) p zz < 0) →
        ∀ A : Assign nS nG, ¬ Feasible cfg dat A) := by
  constructor
  · intro A hF t s
    unfold Feasible VarBounds at hF
    obtain ⟨⟨h1, h2, -, h4, -, -, -, -, -, h10, -, h12, -⟩, -⟩ := hF
    exact ⟨h1 t s, h2 t s, h10 t s, h4 t s, h12 t s⟩
  · intro t s hneg A hF
    have hn1 : A.n1 t s = n1Formula (dat t s) (A.pl t) (A.z t) := by
      have hc := hF
      unfold Feasible at hc
      exact cell_n1_formula cfg (dat t s) A t s (hc.2.1 t s)
    unfold Feasible VarBounds at hF
    obtain ⟨⟨h1, -, -, -, -, -, -, -, -, -, -, -, -, -, -, -, -, hpl, hz,
      -⟩, -⟩ := hF
    have h0 := h1 t s
    rw [hn1] at h0
    have hlt := hneg (A.pl t) (A.z t) (hpl t).1 (hpl t).2 (hz t).1 (hz t).2
    linarith

/-- Witness for C9: nonnegativity at the concrete feasible instance,
and infeasibility of the deep-deletion instance whose `n1` is negative
throughout the ploidy range [1,4] and inverse-purity range [2, 5/2]. -/
theorem default_lower_bounds_nonneg_witness :
    (0 ≤ A0.n1 0 0) ∧ ¬ Feasible cfgN datN A0 := by
  constructor
  · exact ((default_lower_bounds_nonneg cfg0 dat0).1 A0 exFeasible0 0 0).1
  · refine (default_lower_bounds_nonneg cfgN datN).2 0 0 ?_ A0
    intro p zz h1 h2 h3 h4
    simp only [cfgN, cfg0] at h1 h2 h3 h4
    norm_num at h3 h4
    simp only [n1Formula, datN, recodeBAF]
    rw [if_neg (not_not_intro rfl)]
    linarith

/-- C10: a cell whose input BAF is exactly `-9` (a present value) is
constrained identically to a cell with missing (NaN) BAF: the recoding
maps NaN to `-9` and branch selection tests equality to `-9`, so the
BAF-unavailable branch applies, `mcn` is fixed to 0, and the wild-type
minor copy threshold in the gain constraint is `0 + 1`. -/
theorem baf_sentinel_treated_as_missing {nS nG : ℕ} (cfg : Config)
    (d : CellData) (A : Assign nS nG) (t : Fin nS) (s : Fin nG)
    (hd : d.BAF = some (-9)) :
    (CellConstraints cfg d A t s ↔
        CellConstraints cfg { d with BAF := none } A t s) ∧
    (CellConstraints cfg d A t s →
        A.mcn t s = 0 ∧
        (A.mcn_gain t s = true → (A.mcn_int t s : ℚ) ≥ (0 : ℚ) + 1)) := by
  constructor
  · simp only [CellConstraints, hd, recodeBAF]
  · intro h
    simp only [CellConstraints, hd, recodeBAF] at h
    obtain ⟨-, -, hNB, -, -, -, -, -, -, -, -, -, -, -, -, -, -, -, -, -, -,
      -, -, -, -, -, -, -, -, -, -, -, -, -, -, -, -, -, -, h40, -⟩ := h
    refine ⟨(hNB (by norm_num)).2, fun hg => ?_⟩
    have hth := h40 hg
    simpa using hth

/-- A cell carrying the literal BAF value `-9`. -/
def dSent : CellData := { c := 2, BAF := some (-9), GC := 2, mb := 10 }

/-- Witness for C10 at a concrete cell with literal BAF `-9`. -/
theorem baf_sentinel_treated_as_missing_witness :
    CellConstraints cfg0 dSent A0 0 0 ↔
      CellConstraints cfg0 { dSent with BAF := none } A0 0 0 :=
  (baf_sentinel_treated_as_missing cfg0 dSent A0 0 0 rfl).1

/-- C8: the solution-pool extractor produces exactly the specified table:
rows stacked in the order [objective summary (Obj1, Obj2), per-sample
ploidy, per-sample purity, per-segment allmatch, per-cell TCN, per-cell
MCN], one value column per pooled solution, all values rounded to 6
decimal places, purity the reciprocal of the solution's `z`, and Obj2
recomputed per solution as
`-(1-mcn_weight)*tcn_error_clonal - mcn_weight*mcn_error_clonal` from the
solution's own values. -/
theorem extract_solutions_matches_spec {nS nG k : ℕ} (w : ℚ)
    (P : SolPool nS nG k) :
    extractSolutions w P = specTable w P ∧
    ∀ r ∈ extractSolutions w P, r.2.length = k := by
  have h : extractSolutions w P = specTable w P := by
    simp only [extractSolutions, specTable, List.map_append, List.map_map,
      List.map_flatten, List.map_cons, List.map_nil, Function.comp_def]
  refine ⟨h, ?_⟩
  rw [h]
  intro r hr
  simp only [specTable, List.mem_append, List.mem_map, List.mem_flatten,
    List.mem_cons, List.not_mem_nil, or_false] at hr
  rcases hr with ((((((hA | hB) | hpl) | hpu) | ham) | htcn) | hmcn)
  · subst hA; simp
  · subst hB; simp
  · obtain ⟨t, -, ht⟩ := hpl
    subst ht; simp
  · obtain ⟨t, -, ht⟩ := hpu
    subst ht; simp
  · obtain ⟨s, -, hs⟩ := ham
    subst hs; simp
  · obtain ⟨l, ⟨t, -, ht⟩, hl⟩ := htcn
    subst ht
    obtain ⟨s, -, hs⟩ := List.mem_map.mp hl
    subst hs; simp
  · obtain ⟨l, ⟨t, -, ht⟩, hl⟩ := hmcn
    subst ht
    obtain ⟨s, -, hs⟩ := List.mem_map.mp hl
    subst hs; simp

/-- A one-sample, one-segment, one-solution pool. -/
def pool1 : SolPool 1 1 1 :=
  { n_clonal := fun _ => 1, tcn_error_clonal := fun _ => 0,
    mcn_error_clonal := fun _ => 0, pl := fun _ _ => 2, z := fun _ _ => 1,
    allmatch := fun _ _ => 1, tcn := fun _ _ _ => 4, mcn := fun _ _ _ => 2 }

/-- Witness for C8 at a concrete pool. -/
theorem extract_solutions_matches_spec_witness :
    extractSolutions (1/2) pool1 = specTable (1/2) pool1 ∧
    (("Obj1", [round6 (1 : ℚ)]) : String × List ℚ).2.length = 1 :=
  ⟨(extract_solutions_matches_spec (1/2) pool1).1,
   (extract_solutions_matches_spec (1/2) pool1).2 ("Obj1", [round6 (1 : ℚ)])
     (List.Mem.head _)⟩

end CNalign
